import Mathlib

/-!
# Verification of the legal-intelligence human-intervention workflow and orchestrator

Shallow embedding of `Project/human_intervention/approval_manager.py`,
`Project/human_intervention/feedback_handler.py` and
`Project/agents/orchestrator.py`.

Modelling conventions:
* Python `dict`s keyed by strings are association lists `List (String × α)`
  preserving insertion order; assignment `d[k] = v` is `dictSet`, which
  overwrites in place when the key exists and appends otherwise (Python
  dicts keep the original position of an overwritten key).
* Wall-clock readings (`datetime.now()` and its `strftime` renderings) are
  passed explicitly as a `now : String` parameter per call, standing for the
  second-resolution rendering used in identifier construction; sub-second
  precision of the stored datetime objects plays no role in any property
  considered here and is elided.
* Python `str(n)` on a natural number is `natStr` (decimal digits, defined
  here so that proofs can establish injectivity), and `str` on an `int` is
  `intStr`.
* Python exceptions become `Except` values; float arithmetic on the small
  exact values appearing here is modelled by `ℚ` (all values involved,
  e.g. 17/5 and 60, are exactly representable in binary floating point, so
  the two semantics agree on every statement below).
-/

set_option autoImplicit false

namespace Legal

/-- Insert-or-overwrite for an insertion-ordered string-keyed dictionary,
mirroring Python `d[k] = v`: an existing key keeps its position and gets the
new value; a new key is appended at the end. -/
def dictSet {α : Type} : List (String × α) → String → α → List (String × α)
  | [], k, v => [(k, v)]
  | (k', v') :: t, k, v =>
    if k' = k then (k, v) :: t else (k', v') :: dictSet t k v

/-- Key lookup, mirroring Python `d.get(k)` / `k in d`. -/
def dictGet? {α : Type} : List (String × α) → String → Option α
  | [], _ => none
  | (k', v') :: t, k => if k' = k then some v' else dictGet? t k

theorem dictGet?_dictSet_self {α : Type} (l : List (String × α)) (k : String) (v : α) :
    dictGet? (dictSet l k v) k = some v := by
  induction l with
  | nil => simp [dictSet, dictGet?]
  | cons p t ih =>
    obtain ⟨k', v'⟩ := p
    by_cases h : k' = k <;> simp [dictSet, dictGet?, h, ih]

theorem dictSet_of_not_mem {α : Type} (l : List (String × α)) (k : String) (v : α)
    (h : dictGet? l k = none) : dictSet l k v = l ++ [(k, v)] := by
  induction l with
  | nil => simp [dictSet]
  | cons p t ih =>
    obtain ⟨k', v'⟩ := p
    by_cases hk : k' = k
    · simp [dictGet?, hk] at h
    · simp [dictGet?, hk] at h
      simp [dictSet, hk, ih h]

/-! ## Decimal rendering of numbers (Python `str`) -/

/-- Fuel-driven helper for `natDigits` (structural recursion on the fuel, so
that concrete identifiers reduce inside the kernel). -/
def natDigitsAux : Nat → Nat → List Char
  | 0, _ => []
  | fuel + 1, n =>
    if n < 10 then [Nat.digitChar n]
    else natDigitsAux fuel (n / 10) ++ [Nat.digitChar (n % 10)]

/-- Decimal digit list of a natural number, most significant digit first:
the meaning of Python `str(n)` for `n : Nat`. -/
def natDigits (n : Nat) : List Char := natDigitsAux (n + 1) n

theorem natDigitsAux_fuel (f₁ : Nat) :
    ∀ f₂ n : Nat, n < f₁ → n < f₂ → natDigitsAux f₁ n = natDigitsAux f₂ n := by
  induction f₁ with
  | zero => intro f₂ n h _; omega
  | succ f ih =>
    intro f₂ n h1 h2
    cases f₂ with
    | zero => omega
    | succ f' =>
      simp only [natDigitsAux]
      by_cases h10 : n < 10
      · simp [h10]
      · simp only [if_neg h10]
        have hlt : n / 10 < n := Nat.div_lt_self (by omega) (by decide)
        rw [ih f' (n / 10) (by omega) (by omega)]

/-- The defining recurrence of `natDigits`. -/
theorem natDigits_eq (n : Nat) :
    natDigits n =
      if n < 10 then [Nat.digitChar n]
      else natDigits (n / 10) ++ [Nat.digitChar (n % 10)] := by
  show natDigitsAux (n + 1) n = _
  by_cases h10 : n < 10
  · simp [natDigitsAux, h10]
  · have hlt : n / 10 < n := Nat.div_lt_self (by omega) (by decide)
    rw [if_neg h10,
      show natDigitsAux (n + 1) n = natDigitsAux n (n / 10) ++ [Nat.digitChar (n % 10)] from by
        simp [natDigitsAux, h10]]
    congr 1
    exact natDigitsAux_fuel n (n / 10 + 1) (n / 10) (by omega) (by omega)

/-- Numeric value of a digit character. -/
def charVal (c : Char) : Nat := c.toNat - 48

/-- Reading a digit list back as a number. -/
def digitsToNat (l : List Char) : Nat :=
  l.foldl (fun acc c => acc * 10 + charVal c) 0

theorem charVal_digitChar (d : Nat) (h : d < 10) : charVal (Nat.digitChar d) = d := by
  interval_cases d <;> decide

theorem digitsToNat_append_singleton (l : List Char) (c : Char) :
    digitsToNat (l ++ [c]) = digitsToNat l * 10 + charVal c := by
  simp [digitsToNat, List.foldl_append]

theorem digitsToNat_natDigits (n : Nat) : digitsToNat (natDigits n) = n := by
  induction n using Nat.strong_induction_on with
  | _ n ih =>
    rw [natDigits_eq]
    split
    · next h =>
      simp [digitsToNat, charVal_digitChar n h]
    · next h =>
      have hn : 0 < n := Nat.lt_of_lt_of_le (by decide) (Nat.le_of_not_lt h)
      rw [digitsToNat_append_singleton,
        ih (n / 10) (Nat.div_lt_self hn (by decide)),
        charVal_digitChar (n % 10) (Nat.mod_lt n (by decide))]
      have := Nat.div_add_mod n 10
      omega

theorem natDigits_injective : Function.Injective natDigits := by
  intro a b h
  have := congrArg digitsToNat h
  rwa [digitsToNat_natDigits, digitsToNat_natDigits] at this

theorem underscore_not_mem_natDigits (n : Nat) : '_' ∉ natDigits n := by
  induction n using Nat.strong_induction_on with
  | _ n ih =>
    rw [natDigits_eq]
    split
    · next h =>
      have hd : Nat.digitChar n ≠ '_' := by interval_cases n <;> decide
      intro hmem
      simp at hmem
      exact hd hmem.symm
    · next h =>
      intro hmem
      rcases List.mem_append.mp hmem with h1 | h1
      · exact ih (n / 10)
          (Nat.div_lt_self (Nat.lt_of_lt_of_le (by decide) (Nat.le_of_not_lt h)) (by decide)) h1
      · have hd : Nat.digitChar (n % 10) ≠ '_' := by
          have : n % 10 < 10 := Nat.mod_lt n (by decide)
          interval_cases h10 : n % 10 <;> decide
        simp at h1
        exact hd h1.symm

/-- Python `str(n)` for a natural number. -/
def natStr (n : Nat) : String := ⟨natDigits n⟩

/-- Python `str(i)` for an integer. -/
def intStr : Int → String
  | Int.ofNat n => natStr n
  | Int.negSucc n => "-" ++ natStr (n + 1)

/-- Splitting a character list at a separator that occurs in neither prefix is
unambiguous. -/
theorem append_sep_injective (a : List Char) :
    ∀ (b x y : List Char), '_' ∉ a → '_' ∉ b →
      a ++ '_' :: x = b ++ '_' :: y → a = b ∧ x = y := by
  induction a with
  | nil =>
    intro b x y _ hb h
    cases b with
    | nil => simpa using h
    | cons c t =>
      simp at h hb
      exact absurd h.1 hb.1
  | cons c t ih =>
    intro b x y ha hb h
    cases b with
    | nil =>
      simp at h ha
      exact absurd h.1.symm ha.1
    | cons c' t' =>
      simp at h
      obtain ⟨hc, hrest⟩ := h
      have ht : t = t' ∧ x = y := by
        refine ih t' x y ?_ ?_ hrest
        · exact fun hm => ha (List.mem_cons_of_mem c hm)
        · exact fun hm => hb (List.mem_cons_of_mem c' hm)
      exact ⟨by rw [hc, ht.1], ht.2⟩

/-! ## ApprovalManager (`approval_manager.py`) -/

/-- Status strings `'pending' / 'approved' / 'rejected'`. -/
inductive ApprovalStatus where
  | pending
  | approved
  | rejected
  deriving DecidableEq, Repr

/-- The dict built by `ApprovalManager.request_approval` and mutated by
`approve` / `reject`.  Keys that a given record has never been assigned
(`rejection_reason`, `modified_content`, `content_modified` at creation time)
are modelled as `none`. -/
structure ApprovalRequest where
  id : String
  type : String
  content : String
  metadata : List (String × String)
  requester_id : Int
  status : ApprovalStatus
  created_at : String
  approved_by : Option Int
  approved_at : Option String
  comments : Option String
  rejection_reason : Option String
  modified_content : Option String
  content_modified : Option Bool
  deriving DecidableEq, Repr

/-- State of an `ApprovalManager` instance: the `pending_approvals` dict
(despite its name it holds records of every status). -/
structure ApprovalManager where
  pending_approvals : List (String × ApprovalRequest)
  deriving DecidableEq, Repr

/-- `f"{approval_type}_{datetime.now().strftime('%Y%m%d%H%M%S')}_{requester_id}"`
with the clock rendering passed in as `now`. -/
def mkApprovalId (approval_type : String) (now : String) (requester_id : Int) : String :=
  approval_type ++ "_" ++ now ++ "_" ++ intStr requester_id

/-- `ApprovalManager.request_approval`: build the pending record, store it
under its id, return the id. -/
def ApprovalManager.request_approval (m : ApprovalManager) (approval_type content : String)
    (metadata : List (String × String)) (requester_id : Int) (now : String) :
    String × ApprovalManager :=
  let approval_id := mkApprovalId approval_type now requester_id
  let approval_request : ApprovalRequest :=
    { id := approval_id
      type := approval_type
      content := content
      metadata := metadata
      requester_id := requester_id
      status := .pending
      created_at := now
      approved_by := none
      approved_at := none
      comments := none
      rejection_reason := none
      modified_content := none
      content_modified := none }
  (approval_id, ⟨dictSet m.pending_approvals approval_id approval_request⟩)

/-- The field updates `approve` performs on the found record.
`if modifications:` is Python truthiness: `None` and the empty string are
falsy, in which case `modified_content` keeps whatever value it had. -/
def approveUpdate (approval : ApprovalRequest) (approver_id : Int)
    (comments : Option String) (modifications : Option String) (now : String) :
    ApprovalRequest :=
  let hasMods : Bool := match modifications with
    | some s => s ≠ ""
    | none => false
  { approval with
    status := .approved
    approved_by := some approver_id
    approved_at := some now
    comments := comments
    modified_content := if hasMods then modifications else approval.modified_content
    content_modified := some hasMods }

/-- `ApprovalManager.approve`: `ValueError` when the id is unknown; otherwise
the update fires unconditionally (no check that the record is currently
pending). -/
def ApprovalManager.approve (m : ApprovalManager) (approval_id : String) (approver_id : Int)
    (comments : Option String) (modifications : Option String) (now : String) :
    Except String (ApprovalRequest × ApprovalManager) :=
  match dictGet? m.pending_approvals approval_id with
  | none => .error ("Approval request " ++ approval_id ++ " not found")
  | some approval =>
    let approval' := approveUpdate approval approver_id comments modifications now
    .ok (approval', ⟨dictSet m.pending_approvals approval_id approval'⟩)

/-- The field updates `reject` performs on the found record (`comments` is
left untouched by `reject`). -/
def rejectUpdate (approval : ApprovalRequest) (approver_id : Int) (reason : String)
    (now : String) : ApprovalRequest :=
  { approval with
    status := .rejected
    approved_by := some approver_id
    approved_at := some now
    rejection_reason := some reason }

/-- `ApprovalManager.reject`: `ValueError` when the id is unknown; otherwise
the update fires unconditionally (no check that the record is currently
pending). -/
def ApprovalManager.reject (m : ApprovalManager) (approval_id : String) (approver_id : Int)
    (reason : String) (now : String) :
    Except String (ApprovalRequest × ApprovalManager) :=
  match dictGet? m.pending_approvals approval_id with
  | none => .error ("Approval request " ++ approval_id ++ " not found")
  | some approval =>
    let approval' := rejectUpdate approval approver_id reason now
    .ok (approval', ⟨dictSet m.pending_approvals approval_id approval'⟩)

/-- `ApprovalManager.get_pending_approvals`: filter the store's values to the
pending ones; `if requester_id:` is Python truthiness, so the requester filter
is skipped both for `None` and for requester id `0`. -/
def ApprovalManager.get_pending_approvals (m : ApprovalManager)
    (requester_id : Option Int) : List ApprovalRequest :=
  let pending := (m.pending_approvals.map Prod.snd).filter fun a =>
    a.status = ApprovalStatus.pending
  match requester_id with
  | some r => if r = 0 then pending else pending.filter fun a => a.requester_id = r
  | none => pending

/-! ## FeedbackHandler (`feedback_handler.py`) -/

/-- The dict built by `FeedbackHandler.submit_feedback`. -/
structure FeedbackRecord where
  id : String
  content_id : String
  content_type : String
  user_id : Int
  rating : Int
  comments : Option String
  specific_issues : List String
  submitted_at : String
  addressed : Bool
  follow_up : Option String
  deriving DecidableEq, Repr

/-- State of a `FeedbackHandler` instance: the `feedback_store` dict and the
`feedback_counter`. -/
structure FeedbackHandler where
  feedback_store : List (String × FeedbackRecord)
  feedback_counter : Nat
  deriving DecidableEq, Repr

/-- `f"feedback_{self.feedback_counter}_{datetime.now().strftime('%Y%m%d%H%M%S')}"`
with the clock rendering passed in as `now`. -/
def mkFeedbackId (counter : Nat) (now : String) : String :=
  "feedback_" ++ natStr counter ++ "_" ++ now

/-- The id embeds the counter unambiguously: the counter digits contain no
underscore, so the first underscore after the fixed prefix delimits them. -/
theorem mkFeedbackId_inj (n m : Nat) (t u : String)
    (h : mkFeedbackId n t = mkFeedbackId m u) : n = m ∧ t = u := by
  have hdata := congrArg String.data h
  simp only [mkFeedbackId, String.data_append] at hdata
  have h2 : "feedback_".data ++ (natDigits n ++ '_' :: t.data)
      = "feedback_".data ++ (natDigits m ++ '_' :: u.data) := by
    simpa [natStr, List.append_assoc] using hdata
  have hcancel : natDigits n ++ '_' :: t.data = natDigits m ++ '_' :: u.data :=
    List.append_cancel_left h2
  have hsplit := append_sep_injective (natDigits n) (natDigits m) t.data u.data
    (underscore_not_mem_natDigits n) (underscore_not_mem_natDigits m) hcancel
  exact ⟨natDigits_injective hsplit.1, String.ext hsplit.2⟩

/-- `FeedbackHandler.submit_feedback`.  The counter is incremented and the id
built *before* the rating validation, so a rejected submission still consumes
a counter value; the result is the pair of the Python return/raise outcome and
the post-call handler state.  `specific_issues or []` maps both `None` and an
empty list to `[]`. -/
def FeedbackHandler.submit_feedback (h : FeedbackHandler) (content_id content_type : String)
    (user_id : Int) (rating : Int) (comments : Option String)
    (specific_issues : Option (List String)) (now : String) :
    Except String String × FeedbackHandler :=
  let counter := h.feedback_counter + 1
  let feedback_id := mkFeedbackId counter now
  if rating < 1 ∨ 5 < rating then
    (.error "Rating must be between 1 and 5", { h with feedback_counter := counter })
  else
    let feedback : FeedbackRecord :=
      { id := feedback_id
        content_id := content_id
        content_type := content_type
        user_id := user_id
        rating := rating
        comments := comments
        specific_issues := specific_issues.getD []
        submitted_at := now
        addressed := false
        follow_up := none }
    (.ok feedback_id,
      { feedback_store := dictSet h.feedback_store feedback_id feedback
        feedback_counter := counter })

/-- Return type of `FeedbackHandler.get_feedback_summary`: the empty-input
branch of the source returns a dict *without* a `percentage_positive` key, so
that field is an `Option` that is `none` exactly on that branch. -/
structure FeedbackSummary where
  total_feedback : Nat
  average_rating : ℚ
  rating_distribution : List (Int × Nat)
  most_common_issues : List (String × Nat)
  percentage_positive : Option ℚ
  deriving DecidableEq, Repr

/-- Stable insertion (descending by count): the new pair goes in front of the
first entry whose count is ≤ its own. -/
def insertByCountDesc (p : String × Nat) : List (String × Nat) → List (String × Nat)
  | [] => [p]
  | q :: t => if q.2 ≤ p.2 then p :: q :: t else q :: insertByCountDesc p t

/-- Stable sort, descending by count: the meaning of Python
`sorted(items, key=lambda x: x[1], reverse=True)` (Python's sort is stable,
and `reverse=True` preserves the original order of equal keys). -/
def sortByCountDesc : List (String × Nat) → List (String × Nat)
  | [] => []
  | p :: t => insertByCountDesc p (sortByCountDesc t)

/-- The records in scope for a summary: all stored values, filtered by
content type when the filter is truthy (`if content_type:` also skips the
filter for an empty string). -/
def FeedbackHandler.summaryScope (h : FeedbackHandler) (content_type : Option String) :
    List FeedbackRecord :=
  let feedback_list := h.feedback_store.map Prod.snd
  match content_type with
  | some ct => if ct = "" then feedback_list
               else feedback_list.filter fun f => f.content_type = ct
  | none => feedback_list

/-- `FeedbackHandler.get_feedback_summary`.  Float arithmetic is modelled by
`ℚ` (exact for every value below). -/
def FeedbackHandler.get_feedback_summary (h : FeedbackHandler)
    (content_type : Option String) : FeedbackSummary :=
  let feedback_list := h.summaryScope content_type
  if feedback_list.isEmpty then
    { total_feedback := 0
      average_rating := 0
      rating_distribution := []
      most_common_issues := []
      percentage_positive := none }
  else
    let ratings := feedback_list.map fun f => f.rating
    let rating_dist : List (Int × Nat) :=
      [1, 2, 3, 4, 5].map fun i => (i, ratings.count i)
    let all_issues := feedback_list.flatMap fun f => f.specific_issues
    let issue_counts := all_issues.foldl
      (fun acc issue => dictSet acc issue ((dictGet? acc issue).getD 0 + 1)) []
    let most_common := (sortByCountDesc issue_counts).take 5
    { total_feedback := feedback_list.length
      average_rating := (ratings.sum : ℚ) / (ratings.length : ℚ)
      rating_distribution := rating_dist
      most_common_issues := most_common
      percentage_positive :=
        some (((ratings.filter fun r => 4 ≤ r).length : ℚ) / (ratings.length : ℚ) * 100) }

/-- Reachability invariant of a `FeedbackHandler`: every stored key was built
by `submit_feedback` from some past (positive) counter value, hence embeds a
counter component bounded by the current counter. -/
def FeedbackInv (h : FeedbackHandler) : Prop :=
  ∀ p ∈ h.feedback_store, ∃ n t, p.1 = mkFeedbackId n t ∧ 1 ≤ n ∧ n ≤ h.feedback_counter

theorem feedbackInv_init : FeedbackInv ⟨[], 0⟩ := by
  intro p hp
  simp at hp

theorem dictSet_subset {α : Type} (l : List (String × α)) (k : String) (v : α) :
    ∀ p ∈ dictSet l k v, p = (k, v) ∨ p ∈ l := by
  induction l with
  | nil => simp [dictSet]
  | cons q t ih =>
    obtain ⟨k', v'⟩ := q
    intro p hp
    by_cases hk : k' = k
    · simp only [dictSet, if_pos hk] at hp
      rcases List.mem_cons.mp hp with hp | hp
      · exact Or.inl hp
      · exact Or.inr (List.mem_cons_of_mem _ hp)
    · simp only [dictSet, if_neg hk] at hp
      rcases List.mem_cons.mp hp with hp | hp
      · exact Or.inr (by simp [hp])
      · rcases ih p hp with hp' | hp'
        · exact Or.inl hp'
        · exact Or.inr (List.mem_cons_of_mem _ hp')

theorem feedbackInv_submit (h : FeedbackHandler) (content_id content_type : String)
    (user_id : Int) (rating : Int) (comments : Option String)
    (specific_issues : Option (List String)) (now : String) (hinv : FeedbackInv h) :
    FeedbackInv (h.submit_feedback content_id content_type user_id rating comments
      specific_issues now).2 := by
  unfold FeedbackHandler.submit_feedback
  by_cases hr : rating < 1 ∨ 5 < rating
  · simp only [if_pos hr]
    intro p hp
    obtain ⟨n, t, hnt, h1, h2⟩ := hinv p hp
    exact ⟨n, t, hnt, h1, Nat.le_succ_of_le h2⟩
  · simp only [if_neg hr]
    intro p hp
    rcases dictSet_subset _ _ _ p hp with hp' | hp'
    · exact ⟨h.feedback_counter + 1, now, by simp [hp'], Nat.succ_le_succ (Nat.zero_le _),
        Nat.le_refl _⟩
    · obtain ⟨n, t, hnt, h1, h2⟩ := hinv p hp'
      exact ⟨n, t, hnt, h1, Nat.le_succ_of_le h2⟩

theorem mkFeedbackId_fresh_aux (c : Nat) (now : String) :
    ∀ l : List (String × FeedbackRecord),
      (∀ p ∈ l, ∃ n t, p.1 = mkFeedbackId n t ∧ 1 ≤ n ∧ n ≤ c) →
      dictGet? l (mkFeedbackId (c + 1) now) = none := by
  intro l
  induction l with
  | nil => intro _; rfl
  | cons p t ih =>
    intro hall
    obtain ⟨n, u, hnt, _, h2⟩ := hall p (List.mem_cons_self p t)
    have hne : p.1 ≠ mkFeedbackId (c + 1) now := by
      rw [hnt]
      intro heq
      have := (mkFeedbackId_inj _ _ _ _ heq).1
      omega
    obtain ⟨k, v⟩ := p
    simp only [dictGet?, if_neg (by simpa using hne)]
    exact ih fun q hq => hall q (List.mem_cons_of_mem _ hq)

/-- Under the reachability invariant, the id assigned by the next submission
is absent from the store (its counter component exceeds every stored one). -/
theorem mkFeedbackId_fresh (h : FeedbackHandler) (now : String) (hinv : FeedbackInv h) :
    dictGet? h.feedback_store (mkFeedbackId (h.feedback_counter + 1) now) = none :=
  mkFeedbackId_fresh_aux h.feedback_counter now h.feedback_store hinv

/-! ## LegalOrchestrator (`agents/orchestrator.py`)

The orchestrator resolves entities through `utils/database.py` (rows are
dicts, `None` when a lookup by id finds nothing), assembles a task-specific
payload, forwards it to the matching agent (an opaque generation capability)
and persists an audit record.  The environment `Env` packages the external
collaborators: entity tables as id-keyed association lists, the generation
capability as a function from assembled payloads to an `Except` outcome, and
a flag saying whether persistence writes succeed.  The persisted record's
payload (truncated previews etc.) is opaque to every property below and is
not tracked, except where its construction itself can raise (slicing a `None`
`legal_issue`).  Each operation also returns the chronological list of calls
it made to the generation and persistence capabilities. -/

/-- Lawyer row fields read by the orchestrator (`lawyer.get(...)`). -/
structure Lawyer where
  jurisdiction : Option String
  practice_areas : Option String
  firm : Option String
  deriving DecidableEq, Repr

/-- Case row fields read by the orchestrator. -/
structure LegalCase where
  title : Option String
  case_type : Option String
  status : Option String
  case_summary : Option String
  key_issues : Option String
  practice_area : Option String
  client_name : Option String
  deriving DecidableEq, Repr

/-- Document row fields read by the orchestrator (`doc.get(...)`). -/
structure Document where
  id : Option Int
  title : Option String
  document_content : Option String
  document_type : Option String
  deriving DecidableEq, Repr

/-- Lookup by integer primary key (`SELECT ... WHERE id = ?`, `None` when
absent). -/
def intGet? {α : Type} : List (Int × α) → Int → Option α
  | [], _ => none
  | (k, v) :: t, i => if k = i then some v else intGet? t i

/-- `research_data` as assembled by `research_case_law`. -/
structure ResearchData where
  legal_issue : Option String
  jurisdiction : String
  practice_area : String
  current_facts : Option String
  precedents : List String
  deriving DecidableEq, Repr

/-- `contract_data` as assembled by `analyze_contract` (the keys the contract
agent's prompt reads). -/
structure ContractData where
  contract_name : Option String
  contract_text : Option String
  contract_type : Option String
  deriving DecidableEq, Repr

/-- `compliance_data` as assembled by `assess_compliance`. -/
structure ComplianceData where
  organization : String
  industry : Option String
  jurisdictions : List String
  frameworks : List String
  current_practices : Option String
  scope : List String
  deriving DecidableEq, Repr

/-- `case_data` as assembled by `develop_litigation_strategy`. -/
structure LitigationData where
  case_name : String
  case_type : String
  client_position : String
  case_stage : String
  facts : String
  legal_issues : String
  client_info : String
  objectives : Option String
  deriving DecidableEq, Repr

/-- Keyword arguments of `draft_legal_document` that the orchestrator itself
reads (the full kwargs dict also reaches the drafting agent, which is
opaque). -/
structure DraftKwargs where
  title : Option String
  case_id : Option Int
  deriving DecidableEq, Repr

/-- A fully assembled request to the generation capability: one constructor
per agent entry point invoked by the orchestrator. -/
inductive GenRequest where
  | research (data : ResearchData)
  | contract (data : ContractData)
  | compliance (data : ComplianceData)
  | drafting (document_type : String) (kwargs : DraftKwargs)
  | litigation (data : LitigationData)
  deriving DecidableEq, Repr

/-- One call to an external capability, in chronological order. -/
inductive Event where
  | genCall (req : GenRequest)
  | persistWrite
  deriving DecidableEq, Repr

/-- Whether an event is a call to the generation capability. -/
def Event.isGen : Event → Bool
  | .genCall _ => true
  | .persistWrite => false

/-- Caller-visible outcome of an orchestrator operation.  Every branch of the
Python `try` logs and re-raises, so each failure reaches the caller. -/
inductive OrchError where
  | notFound (msg : String)
  | attributeError
  | typeError
  | genFailure (msg : String)
  | persistenceFailure
  | unsupportedDocType (document_type : String)
  deriving DecidableEq, Repr

/-- The external collaborators of the orchestrator. -/
structure Env where
  lawyers : List (Int × Lawyer)
  cases : List (Int × LegalCase)
  documents : List (Int × Document)
  case_documents : List (Int × List Document)
  gen : GenRequest → Except String String
  persist_ok : Bool

/-- Keyword arguments of `research_case_law`. -/
structure ResearchKwargs where
  legal_issue : Option String
  jurisdiction : Option String
  practice_area : Option String
  current_facts : Option String
  precedents : Option (List String)
  case_id : Option Int
  deriving DecidableEq, Repr

/-- `LegalOrchestrator.research_case_law`: resolve the lawyer (ValueError →
NotFound when absent), assemble `research_data` with lawyer-derived defaults
and the case-summary backfill (`if 'case_id' in kwargs and kwargs['case_id']`
is truthiness: id `0` skips the backfill), call the research agent, then
persist a research session.  Building the session name slices
`research_data.get('legal_issue', 'Unknown')[:50]`; the key is always present
with value `None` when the caller supplied no legal issue, so that slice
raises `TypeError` after a successful generation. -/
def research_case_law (env : Env) (lawyer_id : Int) (kw : ResearchKwargs) :
    Except OrchError String × List Event :=
  match intGet? env.lawyers lawyer_id with
  | none => (.error (.notFound ("Lawyer with ID " ++ intStr lawyer_id ++ " not found")), [])
  | some lawyer =>
    let base_facts :=
      match kw.case_id with
      | some cid =>
        if cid = 0 then kw.current_facts
        else
          match intGet? env.cases cid with
          | some c => c.case_summary
          | none => kw.current_facts
      | none => kw.current_facts
    let research_data : ResearchData :=
      { legal_issue := kw.legal_issue
        jurisdiction := kw.jurisdiction.getD (lawyer.jurisdiction.getD "Not specified")
        practice_area := kw.practice_area.getD (lawyer.practice_areas.getD "General")
        current_facts := base_facts
        precedents := kw.precedents.getD [] }
    match env.gen (.research research_data) with
    | .error e => (.error (.genFailure e), [.genCall (.research research_data)])
    | .ok result =>
      match kw.legal_issue with
      | none => (.error .typeError, [.genCall (.research research_data)])
      | some _ =>
        if env.persist_ok then
          (.ok result, [.genCall (.research research_data), .persistWrite])
        else
          (.error .persistenceFailure, [.genCall (.research research_data), .persistWrite])

/-- Keyword arguments of `analyze_contract` that the orchestrator reads. -/
structure ContractKwargs where
  contract_name : Option String
  contract_text : Option String
  contract_type : Option String
  deriving DecidableEq, Repr

/-- The `contract_data` payload `analyze_contract` forwards to the contract
agent: the kwargs copy, overwritten from the fetched document row when
`contract_id` is truthy.  `none` when that fetch crashes: a missing row makes
`contract.get('title')` an `AttributeError` on `None`. -/
def contractDataFor (env : Env) (contract_id : Option Int) (kw : ContractKwargs) :
    Option ContractData :=
  match contract_id with
  | some cid =>
    if cid = 0 then some ⟨kw.contract_name, kw.contract_text, kw.contract_type⟩
    else
      match intGet? env.documents cid with
      | none => none
      | some doc => some ⟨doc.title, doc.document_content, doc.document_type⟩
  | none => some ⟨kw.contract_name, kw.contract_text, kw.contract_type⟩

/-- `LegalOrchestrator.analyze_contract`: note that the lawyer id is never
resolved — it is only copied into the persisted record. -/
def analyze_contract (env : Env) (lawyer_id : Int) (contract_id : Option Int)
    (kw : ContractKwargs) : Except OrchError String × List Event :=
  match contractDataFor env contract_id kw with
  | none => (.error .attributeError, [])
  | some contract_data =>
    match env.gen (.contract contract_data) with
    | .error e => (.error (.genFailure e), [.genCall (.contract contract_data)])
    | .ok result =>
      if env.persist_ok then
        (.ok result, [.genCall (.contract contract_data), .persistWrite])
      else
        (.error .persistenceFailure, [.genCall (.contract contract_data), .persistWrite])

/-- Keyword arguments of `assess_compliance`. -/
structure ComplianceKwargs where
  organization : Option String
  industry : Option String
  jurisdictions : Option (List String)
  frameworks : Option (List String)
  current_practices : Option String
  scope : Option (List String)
  deriving DecidableEq, Repr

/-- `LegalOrchestrator.assess_compliance`: lawyer resolved first (NotFound),
then one generation call, then one persistence write. -/
def assess_compliance (env : Env) (lawyer_id : Int) (kw : ComplianceKwargs) :
    Except OrchError String × List Event :=
  match intGet? env.lawyers lawyer_id with
  | none => (.error (.notFound ("Lawyer with ID " ++ intStr lawyer_id ++ " not found")), [])
  | some lawyer =>
    let compliance_data : ComplianceData :=
      { organization := kw.organization.getD (lawyer.firm.getD "Not specified")
        industry := kw.industry
        jurisdictions := kw.jurisdictions.getD [lawyer.jurisdiction.getD "Not specified"]
        frameworks := kw.frameworks.getD []
        current_practices := kw.current_practices
        scope := kw.scope.getD [] }
    match env.gen (.compliance compliance_data) with
    | .error e => (.error (.genFailure e), [.genCall (.compliance compliance_data)])
    | .ok result =>
      if env.persist_ok then
        (.ok result, [.genCall (.compliance compliance_data), .persistWrite])
      else
        (.error .persistenceFailure, [.genCall (.compliance compliance_data), .persistWrite])

/-- `LegalOrchestrator.draft_legal_document`: dispatch on the document type
(the four supported kinds each call a drafting-agent method; anything else is
a ValueError raised before any generation), then persist the draft.  The
lawyer id is never resolved. -/
def draft_legal_document (env : Env) (lawyer_id : Int) (document_type : String)
    (kw : DraftKwargs) : Except OrchError String × List Event :=
  if document_type = "memo" ∨ document_type = "motion" ∨
      document_type = "demand_letter" ∨ document_type = "contract_clause" then
    match env.gen (.drafting document_type kw) with
    | .error e => (.error (.genFailure e), [.genCall (.drafting document_type kw)])
    | .ok result =>
      if env.persist_ok then
        (.ok result, [.genCall (.drafting document_type kw), .persistWrite])
      else
        (.error .persistenceFailure, [.genCall (.drafting document_type kw), .persistWrite])
  else
    (.error (.unsupportedDocType document_type), [])

/-- Keyword arguments of `develop_litigation_strategy` that the orchestrator
reads. -/
structure LitigationKwargs where
  client_position : Option String
  client_info : Option String
  objectives : Option String
  deriving DecidableEq, Repr

/-- `LegalOrchestrator.develop_litigation_strategy`: the case is resolved
first, then the lawyer (each a ValueError → NotFound), then one generation
call and one persistence write. -/
def develop_litigation_strategy (env : Env) (lawyer_id : Int) (case_id : Int)
    (kw : LitigationKwargs) : Except OrchError String × List Event :=
  match intGet? env.cases case_id with
  | none => (.error (.notFound ("Case with ID " ++ intStr case_id ++ " not found")), [])
  | some c =>
    match intGet? env.lawyers lawyer_id with
    | none => (.error (.notFound ("Lawyer with ID " ++ intStr lawyer_id ++ " not found")), [])
    | some _ =>
      let case_data : LitigationData :=
        { case_name := c.title.getD "Unknown"
          case_type := c.case_type.getD "Civil"
          client_position := kw.client_position.getD "plaintiff"
          case_stage := c.status.getD "active"
          facts := c.case_summary.getD "Not provided"
          legal_issues := c.key_issues.getD "Not specified"
          client_info := kw.client_info.getD (c.client_name.getD "Client")
          objectives := kw.objectives }
      match env.gen (.litigation case_data) with
      | .error e => (.error (.genFailure e), [.genCall (.litigation case_data)])
      | .ok result =>
        if env.persist_ok then
          (.ok result, [.genCall (.litigation case_data), .persistWrite])
        else
          (.error .persistenceFailure, [.genCall (.litigation case_data), .persistWrite])

/-- `doc.get('document_type') in ['contract', 'agreement']`. -/
def isContractType (doc : Document) : Bool :=
  doc.document_type = some "contract" ∨ doc.document_type = some "agreement"

/-- The per-document loop of `comprehensive_case_analysis`:
`for doc in documents[:3]: if contract-type: analyze` — the caller passes the
already-truncated `documents[:3]`; a failing `analyze_contract` aborts the
whole composite (the exception propagates). -/
def analyzeDocsLoop (env : Env) (lawyer_id : Int) :
    List Document → Except OrchError (List String) × List Event
  | [] => (.ok [], [])
  | doc :: rest =>
    if isContractType doc then
      match analyze_contract env lawyer_id doc.id ⟨none, none, none⟩ with
      | (.error e, tr) => (.error e, tr)
      | (.ok analysis, tr) =>
        match analyzeDocsLoop env lawyer_id rest with
        | (.error e, tr') => (.error e, tr ++ tr')
        | (.ok analyses, tr') => (.ok (analysis :: analyses), tr ++ tr')
    else analyzeDocsLoop env lawyer_id rest

/-- The `results` dict of `comprehensive_case_analysis`; the
`document_analyses` key exists only when the case has at least one attached
document. -/
structure ComprehensiveResult where
  case_law_research : String
  litigation_strategy : String
  document_analyses : Option (List String)
  deriving DecidableEq, Repr

/-- `LegalOrchestrator.comprehensive_case_analysis`: fetch the case (no
`None` check — an unknown case crashes on `case.get`, an AttributeError),
chain case-law research and litigation strategy, then analyze the
contract-type documents among `documents[:3]`. -/
def comprehensive_case_analysis (env : Env) (lawyer_id : Int) (case_id : Int) :
    Except OrchError ComprehensiveResult × List Event :=
  match intGet? env.cases case_id with
  | none => (.error .attributeError, [])
  | some c =>
    match research_case_law env lawyer_id
      { legal_issue := c.key_issues
        jurisdiction := none
        practice_area := c.practice_area
        current_facts := none
        precedents := none
        case_id := some case_id } with
    | (.error e, tr1) => (.error e, tr1)
    | (.ok res1, tr1) =>
      match develop_litigation_strategy env lawyer_id case_id ⟨none, none, none⟩ with
      | (.error e, tr2) => (.error e, tr1 ++ tr2)
      | (.ok res2, tr2) =>
        let documents := (intGet? env.case_documents case_id).getD []
        if documents.isEmpty then
          (.ok ⟨res1, res2, none⟩, tr1 ++ tr2)
        else
          match analyzeDocsLoop env lawyer_id (documents.take 3) with
          | (.error e, tr3) => (.error e, tr1 ++ tr2 ++ tr3)
          | (.ok analyses, tr3) => (.ok ⟨res1, res2, some analyses⟩, tr1 ++ tr2 ++ tr3)

/-- Modelled from the spec's words, for comparison with the source behaviour:
"per-document contract analysis limited to the first 3 contract-type
documents attached to the referenced case". -/
def specContractSelection (documents : List Document) : List Document :=
  (documents.filter isContractType).take 3

/-! ## Claims about the FeedbackHandler -/

/-- A handler holding exactly the five records of the C7 scenario. -/
def c7_record (n : Nat) (r : Int) : FeedbackRecord :=
  { id := mkFeedbackId n "20250101000000"
    content_id := "content1"
    content_type := "analysis"
    user_id := 1
    rating := r
    comments := none
    specific_issues := []
    submitted_at := "20250101000000"
    addressed := false
    follow_up := none }

def c7_h : FeedbackHandler :=
  ⟨[(mkFeedbackId 1 "20250101000000", c7_record 1 5),
    (mkFeedbackId 2 "20250101000000", c7_record 2 5),
    (mkFeedbackId 3 "20250101000000", c7_record 3 4),
    (mkFeedbackId 4 "20250101000000", c7_record 4 2),
    (mkFeedbackId 5 "20250101000000", c7_record 5 1)], 5⟩

def c7_summary : FeedbackSummary := c7_h.get_feedback_summary none

/-- C7, counterexample: over ratings [5,5,4,2,1] three ratings (5, 5 and 4)
are ≥ 4, so `percentage_positive` is 60, not the claimed 40. -/
theorem C7_counterexample :
    c7_summary.percentage_positive = some 60 ∧ c7_summary.percentage_positive ≠ some 40 := by
  have h : c7_summary.percentage_positive = some ((3 : ℚ) / 5 * 100) := rfl
  rw [h]
  norm_num

/-- C7, amended: `get_feedback_summary` over exactly 5 records with ratings
[5,5,4,2,1] returns totalFeedback = 5, averageRating = 17/5 = 3.4,
percentagePositive = 60 (three of the five ratings are ≥ 4) and
ratingDistribution = {1:1, 2:1, 3:0, 4:1, 5:2}. -/
theorem C7_summary_values :
    c7_summary.total_feedback = 5 ∧
    c7_summary.average_rating = 17 / 5 ∧
    c7_summary.percentage_positive = some 60 ∧
    c7_summary.rating_distribution = [(1, 1), (2, 1), (3, 0), (4, 1), (5, 2)] ∧
    c7_summary.most_common_issues = [] := by
  refine ⟨rfl, ?_, ?_, by decide, rfl⟩
  · have h : c7_summary.average_rating = ((17 : Int) : ℚ) / ((5 : Nat) : ℚ) := rfl
    rw [h]
    norm_num
  · have h : c7_summary.percentage_positive = some ((3 : ℚ) / 5 * 100) := rfl
    rw [h]
    norm_num

/-- C5, counterexample: the empty-input branch of `get_feedback_summary`
returns a dict with no `percentage_positive` key at all, so that field is not
the claimed zero. -/
theorem C5_counterexample :
    (FeedbackHandler.get_feedback_summary ⟨[], 0⟩ none).percentage_positive = none ∧
    (FeedbackHandler.get_feedback_summary ⟨[], 0⟩ none).percentage_positive ≠ some 0 := by
  refine ⟨rfl, ?_⟩
  intro hcontra
  have h : (FeedbackHandler.get_feedback_summary ⟨[], 0⟩ none).percentage_positive = none := rfl
  rw [h] at hcontra
  cases hcontra

/-- C5, amended: on an empty input set (empty store, or a content-type filter
matching no records) `get_feedback_summary` returns, without raising and
without dividing by zero, totalFeedback = 0, averageRating = 0, empty
ratingDistribution and mostCommonIssues — and *omits* the
`percentage_positive` field (the empty-case dict has no such key). -/
theorem C5_empty_summary (h : FeedbackHandler) (content_type : Option String)
    (hemp : h.summaryScope content_type = []) :
    h.get_feedback_summary content_type =
      { total_feedback := 0
        average_rating := 0
        rating_distribution := []
        most_common_issues := []
        percentage_positive := none } := by
  unfold FeedbackHandler.get_feedback_summary
  rw [hemp]
  rfl

def c5_h : FeedbackHandler :=
  (FeedbackHandler.submit_feedback ⟨[], 0⟩ "content1" "analysis" 1 5 none none
    "20250101000000").2

/-- Witness for C5: a store whose only record is of type "analysis", filtered
by a content type matching no records. -/
theorem C5_witness :
    c5_h.summaryScope (some "strategy") = [] ∧
    c5_h.get_feedback_summary (some "strategy") =
      { total_feedback := 0
        average_rating := 0
        rating_distribution := []
        most_common_issues := []
        percentage_positive := none } :=
  ⟨by decide, C5_empty_summary c5_h (some "strategy") (by decide)⟩

/-- C8: `submit_feedback` fails (ValueError, the InvalidArgument of the spec's
taxonomy) exactly when the rating is outside [1,5]; inside the range it
succeeds and returns the id built from the incremented counter, which — under
the reachability invariant — is fresh: absent from the store. -/
theorem C8_rating_validation (h : FeedbackHandler) (content_id content_type : String)
    (user_id rating : Int) (comments : Option String)
    (specific_issues : Option (List String)) (now : String) :
    ((rating < 1 ∨ 5 < rating) →
      (h.submit_feedback content_id content_type user_id rating comments
        specific_issues now).1 = .error "Rating must be between 1 and 5") ∧
    (1 ≤ rating → rating ≤ 5 →
      (h.submit_feedback content_id content_type user_id rating comments
        specific_issues now).1 = .ok (mkFeedbackId (h.feedback_counter + 1) now) ∧
      (FeedbackInv h →
        dictGet? h.feedback_store (mkFeedbackId (h.feedback_counter + 1) now) = none)) := by
  constructor
  · intro hr
    simp [FeedbackHandler.submit_feedback, if_pos hr]
  · intro h1 h5
    have hr : ¬(rating < 1 ∨ 5 < rating) := by omega
    refine ⟨by simp [FeedbackHandler.submit_feedback, if_neg hr], ?_⟩
    intro hinv
    exact mkFeedbackId_fresh h now hinv

/-- Witness for C8: from the empty handler, rating 0 fails, rating 6 fails,
ratings 1 and 5 succeed with the fresh id `feedback_1_<timestamp>`. -/
theorem C8_witness :
    ((0 : Int) < 1 ∨ 5 < (0 : Int)) ∧
    (FeedbackHandler.submit_feedback ⟨[], 0⟩ "c" "analysis" 1 0 none none
      "20250101000000").1 = .error "Rating must be between 1 and 5" ∧
    ((6 : Int) < 1 ∨ 5 < (6 : Int)) ∧
    (FeedbackHandler.submit_feedback ⟨[], 0⟩ "c" "analysis" 1 6 none none
      "20250101000000").1 = .error "Rating must be between 1 and 5" ∧
    (1 : Int) ≤ 1 ∧ (1 : Int) ≤ 5 ∧
    (FeedbackHandler.submit_feedback ⟨[], 0⟩ "c" "analysis" 1 1 none none
      "20250101000000").1 = .ok (mkFeedbackId 1 "20250101000000") ∧
    (1 : Int) ≤ 5 ∧ (5 : Int) ≤ 5 ∧
    (FeedbackHandler.submit_feedback ⟨[], 0⟩ "c" "analysis" 1 5 none none
      "20250101000000").1 = .ok (mkFeedbackId 1 "20250101000000") ∧
    dictGet? (⟨[], 0⟩ : FeedbackHandler).feedback_store (mkFeedbackId 1 "20250101000000")
      = none :=
  ⟨by decide,
   (C8_rating_validation ⟨[], 0⟩ "c" "analysis" 1 0 none none "20250101000000").1
     (by decide),
   by decide,
   (C8_rating_validation ⟨[], 0⟩ "c" "analysis" 1 6 none none "20250101000000").1
     (by decide),
   by decide, by decide,
   ((C8_rating_validation ⟨[], 0⟩ "c" "analysis" 1 1 none none "20250101000000").2
     (by decide) (by decide)).1,
   by decide, by decide,
   ((C8_rating_validation ⟨[], 0⟩ "c" "analysis" 1 5 none none "20250101000000").2
     (by decide) (by decide)).1,
   ((C8_rating_validation ⟨[], 0⟩ "c" "analysis" 1 5 none none "20250101000000").2
     (by decide) (by decide)).2 feedbackInv_init⟩

/-- C10: a submission rejected for an out-of-range rating leaves the store
untouched but has already consumed a counter value: the counter is
incremented before the validation runs. -/
theorem C10_failed_submit_state (h : FeedbackHandler) (content_id content_type : String)
    (user_id rating : Int) (comments : Option String)
    (specific_issues : Option (List String)) (now : String)
    (hr : rating < 1 ∨ 5 < rating) :
    (h.submit_feedback content_id content_type user_id rating comments
      specific_issues now).1 = .error "Rating must be between 1 and 5" ∧
    (h.submit_feedback content_id content_type user_id rating comments
      specific_issues now).2.feedback_store = h.feedback_store ∧
    (h.submit_feedback content_id content_type user_id rating comments
      specific_issues now).2.feedback_counter = h.feedback_counter + 1 := by
  simp [FeedbackHandler.submit_feedback, if_pos hr]

/-- Witness for C10: a failed rating-6 submission on a one-record store keeps
the store and bumps the counter, so the next successful id skips a value. -/
theorem C10_witness :
    ((6 : Int) < 1 ∨ 5 < (6 : Int)) ∧
    (c5_h.submit_feedback "content2" "analysis" 1 6 none none "20250101000001").1
      = .error "Rating must be between 1 and 5" ∧
    (c5_h.submit_feedback "content2" "analysis" 1 6 none none "20250101000001").2.feedback_store
      = c5_h.feedback_store ∧
    (c5_h.submit_feedback "content2" "analysis" 1 6 none none "20250101000001").2.feedback_counter
      = c5_h.feedback_counter + 1 :=
  ⟨by decide,
   (C10_failed_submit_state c5_h "content2" "analysis" 1 6 none none "20250101000001"
     (by decide)).1,
   (C10_failed_submit_state c5_h "content2" "analysis" 1 6 none none "20250101000001"
     (by decide)).2.1,
   (C10_failed_submit_state c5_h "content2" "analysis" 1 6 none none "20250101000001"
     (by decide)).2.2⟩

/-! ## Claims about the ApprovalManager -/

/-- Extract manager state from an approve/reject outcome. -/
def mgrOf (r : Except String (ApprovalRequest × ApprovalManager)) : Option ApprovalManager :=
  match r with
  | .ok p => some p.2
  | .error _ => none

/-- Extract the returned record from an approve/reject outcome. -/
def reqOf (r : Except String (ApprovalRequest × ApprovalManager)) : Option ApprovalRequest :=
  match r with
  | .ok p => some p.1
  | .error _ => none

def c2_id : String := mkApprovalId "document" "20250101120000" 1

def c2_m1 : ApprovalManager :=
  (ApprovalManager.request_approval ⟨[]⟩ "document" "draft-body" [] 1 "20250101120000").2

/-- The record as it stands in `c2_m1`. -/
def c2_rec0 : ApprovalRequest :=
  { id := c2_id
    type := "document"
    content := "draft-body"
    metadata := []
    requester_id := 1
    status := .pending
    created_at := "20250101120000"
    approved_by := none
    approved_at := none
    comments := none
    rejection_reason := none
    modified_content := none
    content_modified := none }

/-- Manager state after the first, legitimate approval. -/
def c2_m2 : ApprovalManager :=
  (mgrOf (c2_m1.approve c2_id 100 (some "looks good") none "20250101130000")).getD ⟨[]⟩

/-- C2, counterexample: on the already-approved record, a second `approve`
fires and changes the approver from 100 to 200, and a `reject` fires and
flips the status from Approved to Rejected — terminal states are not
protected. -/
theorem C2_counterexample :
    (dictGet? c2_m2.pending_approvals c2_id).map (fun a => a.status) = some .approved ∧
    (dictGet? c2_m2.pending_approvals c2_id).map (fun a => a.approved_by)
      = some (some 100) ∧
    (reqOf (c2_m2.approve c2_id 200 (some "second opinion") none "20250101140000")).map
      (fun a => a.approved_by) = some (some 200) ∧
    (reqOf (c2_m2.reject c2_id 300 "late veto" "20250101150000")).map
      (fun a => a.status) = some .rejected := by
  decide

/-- C2, amended: `Approve` and `Reject` require only that the approval id
exists in the store — they do not check that the record is Pending.  On any
found record, of any status, they fire and overwrite status, approverId,
approvedAt, and comments (Approve) / rejectionReason (Reject), storing the
updated record back under the same id. -/
theorem C2_terminal_not_protected (m : ApprovalManager) (aid : String)
    (a : ApprovalRequest) (happ : dictGet? m.pending_approvals aid = some a)
    (approver : Int) (comments mods : Option String) (reason now : String) :
    (m.approve aid approver comments mods now =
      .ok (approveUpdate a approver comments mods now,
        ⟨dictSet m.pending_approvals aid (approveUpdate a approver comments mods now)⟩) ∧
      (approveUpdate a approver comments mods now).status = .approved ∧
      (approveUpdate a approver comments mods now).approved_by = some approver ∧
      (approveUpdate a approver comments mods now).approved_at = some now ∧
      (approveUpdate a approver comments mods now).comments = comments) ∧
    (m.reject aid approver reason now =
      .ok (rejectUpdate a approver reason now,
        ⟨dictSet m.pending_approvals aid (rejectUpdate a approver reason now)⟩) ∧
      (rejectUpdate a approver reason now).status = .rejected ∧
      (rejectUpdate a approver reason now).approved_by = some approver ∧
      (rejectUpdate a approver reason now).rejection_reason = some reason) := by
  constructor
  · refine ⟨?_, rfl, rfl, rfl, rfl⟩
    unfold ApprovalManager.approve
    rw [happ]
  · refine ⟨?_, rfl, rfl, rfl⟩
    unfold ApprovalManager.reject
    rw [happ]

/-- Witness for the amended C2: applied to the already-approved record of the
counterexample scenario. -/
theorem C2_witness :
    dictGet? c2_m2.pending_approvals c2_id
      = some (approveUpdate c2_rec0 100 (some "looks good") none "20250101130000") ∧
    c2_m2.approve c2_id 200 (some "second opinion") none "20250101140000" =
      .ok (approveUpdate (approveUpdate c2_rec0 100 (some "looks good") none "20250101130000")
            200 (some "second opinion") none "20250101140000",
        ⟨dictSet c2_m2.pending_approvals c2_id
          (approveUpdate (approveUpdate c2_rec0 100 (some "looks good") none "20250101130000")
            200 (some "second opinion") none "20250101140000")⟩) :=
  ⟨by decide,
   ((C2_terminal_not_protected c2_m2 c2_id
      (approveUpdate c2_rec0 100 (some "looks good") none "20250101130000") (by decide)
      200 (some "second opinion") none "late veto" "20250101140000").1).1⟩

def c3_call1 : String × ApprovalManager :=
  ApprovalManager.request_approval ⟨[]⟩ "document" "first-content" [] 7 "20250101120000"

def c3_call2 : String × ApprovalManager :=
  ApprovalManager.request_approval c3_call1.2 "document" "second-content" [] 7 "20250101120000"

/-- C3, counterexample: two `request_approval` calls with the same approval
type and requester within the same clock second produce the *same* id, and
the second call displaces the first record (the store still holds a single
record, now carrying the second content). -/
theorem C3_counterexample :
    c3_call2.1 = c3_call1.1 ∧
    c3_call2.2.pending_approvals.length = 1 ∧
    (dictGet? c3_call2.2.pending_approvals c3_call1.1).map (fun a => a.content)
      = some "second-content" := by
  decide

/-- C3, amended: the id returned by `request_approval` is
`{type}_{timestamp-second}_{requesterId}`; it is distinct from every existing
id — and the new Pending record is appended without displacing any existing
record — exactly when that string is not already a key of the store.  Two
calls sharing approvalType, requesterId and clock second collide, and the
second silently overwrites the first. -/
theorem C3_id_freshness (m : ApprovalManager) (approval_type content : String)
    (metadata : List (String × String)) (requester_id : Int) (now : String)
    (hfresh : dictGet? m.pending_approvals (mkApprovalId approval_type now requester_id)
      = none) :
    (m.request_approval approval_type content metadata requester_id now).1
      = mkApprovalId approval_type now requester_id ∧
    (m.request_approval approval_type content metadata requester_id now).2.pending_approvals
      = m.pending_approvals ++
        [(mkApprovalId approval_type now requester_id,
          { id := mkApprovalId approval_type now requester_id
            type := approval_type
            content := content
            metadata := metadata
            requester_id := requester_id
            status := .pending
            created_at := now
            approved_by := none
            approved_at := none
            comments := none
            rejection_reason := none
            modified_content := none
            content_modified := none })] := by
  refine ⟨rfl, ?_⟩
  exact dictSet_of_not_mem m.pending_approvals _ _ hfresh

/-- Witness for the amended C3: a second request in a different clock second
gets a fresh id and is appended behind the first record. -/
theorem C3_witness :
    dictGet? c3_call1.2.pending_approvals (mkApprovalId "document" "20250101120001" 7)
      = none ∧
    (c3_call1.2.request_approval "document" "second-content" [] 7 "20250101120001").1
      = mkApprovalId "document" "20250101120001" 7 ∧
    (c3_call1.2.request_approval "document" "second-content" [] 7
      "20250101120001").2.pending_approvals
      = c3_call1.2.pending_approvals ++
        [(mkApprovalId "document" "20250101120001" 7,
          { id := mkApprovalId "document" "20250101120001" 7
            type := "document"
            content := "second-content"
            metadata := []
            requester_id := 7
            status := .pending
            created_at := "20250101120001"
            approved_by := none
            approved_at := none
            comments := none
            rejection_reason := none
            modified_content := none
            content_modified := none })] :=
  ⟨by decide,
   (C3_id_freshness c3_call1.2 "document" "second-content" [] 7 "20250101120001"
     (by decide)).1,
   (C3_id_freshness c3_call1.2 "document" "second-content" [] 7 "20250101120001"
     (by decide)).2⟩

def c9_m : ApprovalManager :=
  (ApprovalManager.request_approval ⟨[]⟩ "document" "needs review" [] 1 "20250101120000").2

/-- C9, counterexample: with a single Pending request from requester 1,
`get_pending_approvals(0)` returns that request — requester id 0 is falsy in
Python, so the requester filter is silently skipped instead of matching
nothing. -/
theorem C9_counterexample :
    (c9_m.get_pending_approvals (some 0)).map (fun a => a.requester_id) = [1] ∧
    c9_m.get_pending_approvals (some 0) ≠ [] := by
  decide

/-- C9, amended: for every requester id r ≠ 0, `get_pending_approvals(r)`
returns exactly the stored requests that are Pending with requester_id = r;
with no argument it returns exactly all Pending requests; and r = 0 behaves
like the no-argument call (Python truthiness skips the filter), not like a
filter for requester 0. -/
theorem C9_pending_filter (m : ApprovalManager) (r : Int) (a : ApprovalRequest) :
    (r ≠ 0 →
      (a ∈ m.get_pending_approvals (some r) ↔
        a ∈ m.pending_approvals.map Prod.snd ∧ a.status = .pending ∧ a.requester_id = r)) ∧
    (a ∈ m.get_pending_approvals none ↔
      a ∈ m.pending_approvals.map Prod.snd ∧ a.status = .pending) ∧
    m.get_pending_approvals (some 0) = m.get_pending_approvals none := by
  refine ⟨?_, ?_, ?_⟩
  · intro hr
    simp [ApprovalManager.get_pending_approvals, hr, List.mem_filter, and_assoc]
    tauto
  · simp [ApprovalManager.get_pending_approvals, List.mem_filter]
  · simp [ApprovalManager.get_pending_approvals]

/-- The single record held by `c9_m`. -/
def c9_rec : ApprovalRequest :=
  { id := mkApprovalId "document" "20250101120000" 1
    type := "document"
    content := "needs review"
    metadata := []
    requester_id := 1
    status := .pending
    created_at := "20250101120000"
    approved_by := none
    approved_at := none
    comments := none
    rejection_reason := none
    modified_content := none
    content_modified := none }

/-- Witness for the amended C9, at requester id 1. -/
theorem C9_witness :
    (1 : Int) ≠ 0 ∧
    (c9_rec ∈ c9_m.get_pending_approvals (some 1) ↔
      c9_rec ∈ c9_m.pending_approvals.map Prod.snd ∧ c9_rec.status = .pending ∧
        c9_rec.requester_id = 1) :=
  ⟨by decide, (C9_pending_filter c9_m 1 c9_rec).1 (by decide)⟩

/-! ## Claims about the orchestrator -/

def c1_lawyer : Lawyer := ⟨some "Federal", some "Corporate Law", some "Doe & Associates"⟩

/-- Environment where every lookup succeeds, generation succeeds, and
persistence succeeds. -/
def c1_envOk : Env :=
  { lawyers := [(1, c1_lawyer)]
    cases := []
    documents := []
    case_documents := []
    gen := fun _ => .ok "GENERATED"
    persist_ok := true }

/-- Same environment, with the persistence capability failing. -/
def c1_env : Env := { c1_envOk with persist_ok := false }

def c1_kw : ResearchKwargs := ⟨some "breach of contract", none, none, none, none, none⟩

/-- C1, counterexample: with generation succeeding and persistence failing,
`research_case_law` raises the persistence failure to the caller instead of
returning the generated text — with persistence intact the very same call
returns "GENERATED". -/
theorem C1_counterexample :
    (research_case_law c1_env 1 c1_kw).1 = .error .persistenceFailure ∧
    (research_case_law c1_envOk 1 c1_kw).1 = .ok "GENERATED" :=
  ⟨rfl, rfl⟩

/-- C1, amended: when the generation call succeeds and the subsequent
persistence write fails, the orchestrator operation does NOT return the
generated text: the `except` block logs and re-raises, so the caller sees the
persistence failure (shown for `research_case_law` and `analyze_contract`,
the two operations the claim cites). -/
theorem C1_persistence_failure_propagates (env : Env) (lawyer_id : Int)
    (kw : ResearchKwargs) (contract_id : Option Int) (ckw : ContractKwargs)
    (hgen : ∀ r, ∃ t, env.gen r = .ok t) (hp : env.persist_ok = false) :
    ((intGet? env.lawyers lawyer_id).isSome → kw.legal_issue.isSome →
      (research_case_law env lawyer_id kw).1 = .error .persistenceFailure) ∧
    ((contractDataFor env contract_id ckw).isSome →
      (analyze_contract env lawyer_id contract_id ckw).1 = .error .persistenceFailure) := by
  constructor
  · intro hlaw hki
    obtain ⟨lawyer, hlw⟩ := Option.isSome_iff_exists.mp hlaw
    obtain ⟨ki, hki'⟩ := Option.isSome_iff_exists.mp hki
    simp only [research_case_law, hlw, hki', hp]
    split
    · next e heq =>
      obtain ⟨t, hg⟩ := hgen _
      rw [hg] at heq
      cases heq
    · rfl
  · intro hcd
    obtain ⟨cd, hcd'⟩ := Option.isSome_iff_exists.mp hcd
    simp only [analyze_contract, hcd', hp]
    split
    · next e heq =>
      obtain ⟨t, hg⟩ := hgen _
      rw [hg] at heq
      cases heq
    · rfl

/-- Witness for the amended C1, in the concrete failing-persistence
environment. -/
theorem C1_witness :
    (research_case_law c1_env 1 c1_kw).1 = Except.error .persistenceFailure ∧
    (analyze_contract c1_env 1 none ⟨none, none, none⟩).1
      = Except.error .persistenceFailure :=
  ⟨(C1_persistence_failure_propagates c1_env 1 c1_kw none ⟨none, none, none⟩
      (fun _ => ⟨"GENERATED", rfl⟩) rfl).1 (by decide) (by decide),
   (C1_persistence_failure_propagates c1_env 1 c1_kw none ⟨none, none, none⟩
      (fun _ => ⟨"GENERATED", rfl⟩) rfl).2 (by decide)⟩

/-- Is this outcome a `NotFound` (ValueError "... not found") error? -/
def resultIsNotFound {α : Type} (r : Except OrchError α) : Bool :=
  match r with
  | .error (.notFound _) => true
  | _ => false

/-- Environment with no lawyers at all (every requester id is unknown), one
case for the litigation flow, and working capabilities. -/
def c4_env : Env :=
  { lawyers := []
    cases := [(2, ⟨some "Test Corp v. Sample Inc", some "Civil", some "active",
      some "summary", some "ip dispute", some "IP", some "Test Corp"⟩)]
    documents := []
    case_documents := []
    gen := fun _ => .ok "GENERATED"
    persist_ok := true }

/-- C4, counterexample: `analyze_contract` with a requester id that resolves
to no lawyer does not fail with NotFound — it invokes the generation
capability and even persists and succeeds. -/
theorem C4_counterexample :
    intGet? c4_env.lawyers 5 = none ∧
    (analyze_contract c4_env 5 none ⟨none, none, none⟩).2.any Event.isGen = true ∧
    (analyze_contract c4_env 5 none ⟨none, none, none⟩).1 = .ok "GENERATED" :=
  ⟨rfl, rfl, rfl⟩

/-- C4, amended: when the requester id resolves to no lawyer, case-law
research, compliance assessment and litigation strategy fail with NotFound
with no generation call and no persistence write (for litigation strategy the
case is checked first, so the NotFound may be about the case instead); but
contract analysis and document drafting never resolve the requester id — they
invoke the generation capability regardless. -/
theorem C4_entity_resolution (env : Env) (lawyer_id : Int) (kw : ResearchKwargs)
    (ckw : ComplianceKwargs) (lkw : LitigationKwargs) (case_id : Int)
    (contract_id : Option Int) (ckw2 : ContractKwargs) (dkw : DraftKwargs)
    (hlaw : intGet? env.lawyers lawyer_id = none) :
    research_case_law env lawyer_id kw =
      (.error (.notFound ("Lawyer with ID " ++ intStr lawyer_id ++ " not found")), []) ∧
    assess_compliance env lawyer_id ckw =
      (.error (.notFound ("Lawyer with ID " ++ intStr lawyer_id ++ " not found")), []) ∧
    (resultIsNotFound (develop_litigation_strategy env lawyer_id case_id lkw).1 = true ∧
      (develop_litigation_strategy env lawyer_id case_id lkw).2 = []) ∧
    ((contractDataFor env contract_id ckw2).isSome →
      (analyze_contract env lawyer_id contract_id ckw2).2.any Event.isGen = true) ∧
    (draft_legal_document env lawyer_id "memo" dkw).2.any Event.isGen = true := by
  refine ⟨?_, ?_, ?_, ?_, ?_⟩
  · unfold research_case_law
    rw [hlaw]
  · unfold assess_compliance
    rw [hlaw]
  · unfold develop_litigation_strategy
    cases hc : intGet? env.cases case_id with
    | none => exact ⟨rfl, rfl⟩
    | some c =>
      rw [hlaw]
      exact ⟨rfl, rfl⟩
  · intro hcd
    obtain ⟨cd, hcd'⟩ := Option.isSome_iff_exists.mp hcd
    simp only [analyze_contract, hcd']
    split
    · rfl
    · split <;> rfl
  · simp only [draft_legal_document]
    split
    · split
      · rfl
      · split <;> rfl
    · next hneg => exact absurd (Or.inl trivial) hneg

/-- Witness for the amended C4: requester id 5 is unknown in `c4_env`. -/
theorem C4_witness :
    intGet? c4_env.lawyers 5 = none ∧
    research_case_law c4_env 5 c1_kw =
      (.error (.notFound ("Lawyer with ID " ++ intStr 5 ++ " not found")), []) ∧
    assess_compliance c4_env 5 ⟨none, none, none, none, none, none⟩ =
      (.error (.notFound ("Lawyer with ID " ++ intStr 5 ++ " not found")), []) ∧
    resultIsNotFound (develop_litigation_strategy c4_env 5 2 ⟨none, none, none⟩).1 = true ∧
    (develop_litigation_strategy c4_env 5 2 ⟨none, none, none⟩).2 = [] ∧
    (draft_legal_document c4_env 5 "memo" ⟨none, none⟩).2.any Event.isGen = true :=
  ⟨rfl,
   (C4_entity_resolution c4_env 5 c1_kw ⟨none, none, none, none, none, none⟩
     ⟨none, none, none⟩ 2 none ⟨none, none, none⟩ ⟨none, none⟩ rfl).1,
   (C4_entity_resolution c4_env 5 c1_kw ⟨none, none, none, none, none, none⟩
     ⟨none, none, none⟩ 2 none ⟨none, none, none⟩ ⟨none, none⟩ rfl).2.1,
   (C4_entity_resolution c4_env 5 c1_kw ⟨none, none, none, none, none, none⟩
     ⟨none, none, none⟩ 2 none ⟨none, none, none⟩ ⟨none, none⟩ rfl).2.2.1.1,
   (C4_entity_resolution c4_env 5 c1_kw ⟨none, none, none, none, none, none⟩
     ⟨none, none, none⟩ 2 none ⟨none, none, none⟩ ⟨none, none⟩ rfl).2.2.1.2,
   (C4_entity_resolution c4_env 5 c1_kw ⟨none, none, none, none, none, none⟩
     ⟨none, none, none⟩ 2 none ⟨none, none, none⟩ ⟨none, none⟩ rfl).2.2.2.2⟩

/-- Extract the `document_analyses` entry from a composite outcome (`none`
when the composite failed). -/
def docAnalysesOf (r : Except OrchError ComprehensiveResult) : Option (Option (List String)) :=
  match r with
  | .ok res => some res.document_analyses
  | .error _ => none

def c6_case : LegalCase :=
  ⟨some "Alpha v Beta", some "Civil", some "active", some "alpha facts",
   some "ip dispute", some "IP", some "Alpha Corp"⟩

def c6_memo (n : Int) : Document := ⟨some n, some "Memo", some "memo text", some "memo"⟩

def c6_contract : Document := ⟨some 4, some "MSA", some "contract text", some "contract"⟩

/-- Three non-contract documents precede the single contract document. -/
def c6_docs : List Document := [c6_memo 10, c6_memo 11, c6_memo 12, c6_contract]

def c6_env : Env :=
  { lawyers := [(1, c1_lawyer)]
    cases := [(2, c6_case)]
    documents := [(4, c6_contract)]
    case_documents := [(2, c6_docs)]
    gen := fun _ => .ok "GENERATED"
    persist_ok := true }

/-- C6, counterexample: the case has one contract-type document, but it is
preceded by three memos; the spec's selection ("first 3 contract-type
documents") would analyze it, yet the composite analyzes nothing — the code
truncates to `documents[:3]` *before* filtering by type. -/
theorem C6_counterexample :
    (comprehensive_case_analysis c6_env 1 2).1 = .ok ⟨"GENERATED", "GENERATED", some []⟩ ∧
    specContractSelection c6_docs = [c6_contract] :=
  ⟨rfl, rfl⟩

/-- Characterization of the per-document loop when generation and persistence
succeed and every contract-type document's row fetch succeeds: it analyzes
exactly the contract-type documents of its input list, in order. -/
theorem analyzeDocsLoop_ok (env : Env) (lawyer_id : Int) (G : GenRequest → String)
    (cdOf : Document → ContractData)
    (hgen : ∀ r, env.gen r = .ok (G r)) (hp : env.persist_ok = true) :
    ∀ ds : List Document,
      (∀ d ∈ ds.filter isContractType,
        contractDataFor env d.id ⟨none, none, none⟩ = some (cdOf d)) →
      analyzeDocsLoop env lawyer_id ds =
        (.ok ((ds.filter isContractType).map fun d => G (.contract (cdOf d))),
         (ds.filter isContractType).flatMap
           fun d => [.genCall (.contract (cdOf d)), .persistWrite]) := by
  intro ds
  induction ds with
  | nil => intro _; rfl
  | cons d rest ih =>
    intro hcd
    by_cases hct : isContractType d
    · have hfil : (d :: rest).filter isContractType = d :: rest.filter isContractType :=
        List.filter_cons_of_pos hct
      have hone : analyze_contract env lawyer_id d.id ⟨none, none, none⟩ =
          (.ok (G (.contract (cdOf d))),
           [.genCall (.contract (cdOf d)), .persistWrite]) := by
        have hd : contractDataFor env d.id ⟨none, none, none⟩ = some (cdOf d) :=
          hcd d (by rw [hfil]; exact List.mem_cons_self d _)
        simp only [analyze_contract, hd, hgen, hp, if_true]
      have hrest := ih fun x hx => hcd x (by rw [hfil]; exact List.mem_cons_of_mem d hx)
      simp only [analyzeDocsLoop, if_pos hct, hone, hrest, hfil, List.map_cons,
        List.flatMap_cons]
    · have hfil : (d :: rest).filter isContractType = rest.filter isContractType :=
        List.filter_cons_of_neg (by simpa using hct)
      have hrest := ih fun x hx => hcd x (by rw [hfil]; exact hx)
      simp only [analyzeDocsLoop, if_neg hct, hrest, hfil]

/-- A successful `research_case_law` outcome under the C6 hypotheses. -/
theorem research_ok (env : Env) (lawyer_id : Int) (kw : ResearchKwargs) (lawyer : Lawyer)
    (G : GenRequest → String) (hlw : intGet? env.lawyers lawyer_id = some lawyer)
    (ki : String) (hki : kw.legal_issue = some ki)
    (hgen : ∀ r, env.gen r = .ok (G r)) (hp : env.persist_ok = true) :
    ∃ t tr, research_case_law env lawyer_id kw = (.ok t, tr) := by
  simp only [research_case_law, hlw, hki, hgen, hp, if_true]
  exact ⟨_, _, rfl⟩

/-- A successful `develop_litigation_strategy` outcome under the C6
hypotheses. -/
theorem litigation_ok (env : Env) (lawyer_id case_id : Int) (kw : LitigationKwargs)
    (c : LegalCase) (lawyer : Lawyer) (G : GenRequest → String)
    (hc : intGet? env.cases case_id = some c)
    (hlw : intGet? env.lawyers lawyer_id = some lawyer)
    (hgen : ∀ r, env.gen r = .ok (G r)) (hp : env.persist_ok = true) :
    ∃ t tr, develop_litigation_strategy env lawyer_id case_id kw = (.ok t, tr) := by
  simp only [develop_litigation_strategy, hc, hlw, hgen, hp, if_true]
  exact ⟨_, _, rfl⟩

/-- C6, amended: the composite's per-document step runs over exactly the
contract-type documents among the *first 3 attached documents of any type*
(in attachment order): a contract-type document preceded by three or more
other documents is never analyzed, and at most 3 documents are ever
considered. -/
theorem C6_contract_selection (env : Env) (lawyer_id case_id : Int) (c : LegalCase)
    (G : GenRequest → String) (cdOf : Document → ContractData)
    (hc : intGet? env.cases case_id = some c)
    (hki : c.key_issues.isSome)
    (hlaw : (intGet? env.lawyers lawyer_id).isSome)
    (hgen : ∀ r, env.gen r = .ok (G r))
    (hp : env.persist_ok = true)
    (hne : (intGet? env.case_documents case_id).getD [] ≠ [])
    (hcd : ∀ d ∈ (((intGet? env.case_documents case_id).getD []).take 3).filter
        isContractType,
      contractDataFor env d.id ⟨none, none, none⟩ = some (cdOf d)) :
    docAnalysesOf (comprehensive_case_analysis env lawyer_id case_id).1 =
      some (some (((((intGet? env.case_documents case_id).getD []).take 3).filter
        isContractType).map fun d => G (.contract (cdOf d)))) := by
  obtain ⟨lawyer, hlw⟩ := Option.isSome_iff_exists.mp hlaw
  obtain ⟨ki, hki'⟩ := Option.isSome_iff_exists.mp hki
  obtain ⟨t1, tr1, hres⟩ := research_ok env lawyer_id
    { legal_issue := c.key_issues
      jurisdiction := none
      practice_area := c.practice_area
      current_facts := none
      precedents := none
      case_id := some case_id } lawyer G hlw ki hki' hgen hp
  obtain ⟨t2, tr2, hlit⟩ := litigation_ok env lawyer_id case_id ⟨none, none, none⟩
    c lawyer G hc hlw hgen hp
  have hemp : ((intGet? env.case_documents case_id).getD []).isEmpty = false := by
    cases hdoc : (intGet? env.case_documents case_id).getD [] with
    | nil => exact absurd hdoc hne
    | cons x xs => rfl
  simp only [comprehensive_case_analysis, hc, hres, hlit, hemp, Bool.false_eq_true,
    if_false, analyzeDocsLoop_ok env lawyer_id G cdOf hgen hp _ hcd]
  rfl

def c6w_contract (n : Int) : Document :=
  ⟨some n, some ("Contract " ++ intStr n), some "body", some "contract"⟩

/-- Contract, memo, contract, contract: the first three attached documents
contain two contract-type documents. -/
def c6w_docs : List Document :=
  [c6w_contract 4, c6_memo 10, c6w_contract 5, c6w_contract 6]

def c6w_env : Env :=
  { lawyers := [(1, c1_lawyer)]
    cases := [(2, c6_case)]
    documents := [(4, c6w_contract 4), (5, c6w_contract 5), (6, c6w_contract 6)]
    case_documents := [(2, c6w_docs)]
    gen := fun _ => .ok "GENERATED"
    persist_ok := true }

def c6w_cdOf (d : Document) : ContractData :=
  ⟨d.title, d.document_content, d.document_type⟩

/-- Witness for the amended C6: with documents [contract, memo, contract,
contract] exactly the two contract-type documents among the first three are
analyzed — the third contract, in fourth position, is skipped. -/
theorem C6_witness :
    intGet? c6w_env.cases 2 = some c6_case ∧
    (intGet? c6w_env.case_documents 2).getD [] ≠ [] ∧
    ((((intGet? c6w_env.case_documents 2).getD []).take 3).filter isContractType).length
      = 2 ∧
    docAnalysesOf (comprehensive_case_analysis c6w_env 1 2).1 =
      some (some (((((intGet? c6w_env.case_documents 2).getD []).take 3).filter
        isContractType).map fun d =>
          (fun _ => "GENERATED") (GenRequest.contract (c6w_cdOf d)))) :=
  ⟨rfl, by decide, by decide,
   C6_contract_selection c6w_env 1 2 c6_case (fun _ => "GENERATED") c6w_cdOf
     rfl rfl rfl (fun _ => rfl) rfl (by decide) (by decide)⟩

end Legal
